import Mathlib

/-!
# xpy bridge: the value codec and the call router of `pybind_xpy_manual.cpp`

A shallow embedding of `src/Native/xpy/xpy/pybind_xpy_manual.cpp`.

* Objects of the embedded interpreter are values of `PyObj`; a `PyObject*` that may be
  `NULL` is an `Option PyObj`.
* Everything the interpreter decides on its own (what a callable returns, whether a module
  exists) is an oracle in `Interp`, threaded through an abstract interpreter state.
* The interpreter's error indicator (`PyErr_SetString`, `PyErr_Occurred`) is explicit state.
* Undefined behaviour of the C++ code (a write past the end of a buffer, a `NULL`
  dereference) is the outcome `Outcome.fault`.
* The width of the C type `long` is a parameter (`LongWidth`).
* The value codec of the specification (`Wire`, `to_wire`, `from_wire`) is defined apart from
  the code, from sections 3 and 4 of the specification; the code is compared with it.
-/

namespace Xpy

/-! ## Machine integers -/

/-- Width of the C type `long`: 32 bits (LLP64 and ILP32 targets) or 64 bits (LP64). -/
inductive LongWidth where
  | bits32
  | bits64
  deriving DecidableEq, Repr

/-- Number of bits of `long`. -/
def LongWidth.bits : LongWidth → Nat
  | .bits32 => 32
  | .bits64 => 64

/-- Smallest value of `long`. -/
def LONG_MIN (w : LongWidth) : Int := -(2 ^ (w.bits - 1))

/-- Largest value of `long`. -/
def LONG_MAX (w : LongWidth) : Int := 2 ^ (w.bits - 1) - 1

/-- Smallest value of `int` (32 bits). -/
def INT_MIN : Int := -2147483648

/-- Largest value of `int` (32 bits). -/
def INT_MAX : Int := 2147483647

/-- Smallest value of `long long` (64 bits). -/
def LLONG_MIN : Int := -9223372036854775808

/-- Largest value of `long long` (64 bits). -/
def LLONG_MAX : Int := 9223372036854775807

/-- Conversion of a `long` to `int`, as in `v.d = result` and `*id = n`: the value is kept
modulo `2^32`. -/
def long_to_int (x : Int) : Int := (x + 2147483648) % 4294967296 - 2147483648

/-! ## Values of the embedded interpreter -/

/-- A C `double`, kept as its bit pattern: the bridge only copies it. -/
structure Double where
  bits : Nat
  deriving DecidableEq, Repr

/-- A pointer payload: `NULL`, the address of a null-terminated character buffer holding
valid UTF-8 (kept with its contents), the address of a null-terminated buffer whose bytes are
not valid UTF-8, or any other address. -/
inductive Ptr where
  | null
  | cstr (s : String)
  | bytes (a : Nat)
  | addr (a : Nat)
  deriving DecidableEq, Repr

/-- A Python object as the bridge sees one element: `None`, a `bool`, an `int`, a `float`,
another numeric object (`complex`, ...), a `str` that can be encoded as UTF-8 (with its text),
a `str` that cannot (it holds a lone surrogate; known by its identity only), a capsule (pointer
and optional name), or any other object, known by its identity only. -/
inductive PyObj where
  | none
  | bool (b : Bool)
  | long (n : Int)
  | float (x : Double)
  | number (id : Nat)
  | unicode (s : String)
  | surrogates (id : Nat)
  | capsule (p : Ptr) (name : Option String)
  | object (id : Nat)
  deriving DecidableEq, Repr

/-- What a call hands back to `PyTuple_Check`: a tuple of objects, or a single object that is
not a tuple. -/
inductive PyValue where
  | obj (o : PyObj)
  | tuple (items : List PyObj)
  deriving DecidableEq, Repr

/-- A raised exception: its class and its message. -/
structure PyErr where
  exc : String
  msg : String
  deriving DecidableEq, Repr

/-- Result of calling into the interpreter: a value, or `NULL` with an exception raised. -/
inductive PyResult (α : Type) where
  | value (a : α)
  | raised (e : PyErr)
  deriving DecidableEq, Repr

/-- The interpreter as the bridge uses it. `proxy`, `object` are `PyObject_CallObject` on the
globals `func_proxy` and `func_object`; `call` is `PyObject_CallObject` on any other callable;
`numberLong` is `PyNumber_Long` on objects that are neither `int` nor `bool`;
`importModule` is `PyImport_ImportModule`, `getAttr` is `PyObject_GetAttrString`, `callable`
is `PyCallable_Check`, and `typeStr` is the text of `PyObject_Str(PyObject_Type(o))`. -/
structure Interp (σ : Type) where
  proxy : PyObj → σ → PyResult PyValue × σ
  object : PyObj → PyObj → σ → PyResult PyObj × σ
  call : PyObj → List PyObj → σ → PyResult PyValue × σ
  numberLong : PyObj → Option Int
  importModule : String → σ → PyResult PyObj × σ
  getAttr : PyObj → String → σ → PyResult PyObj × σ
  callable : PyObj → Bool
  typeStr : PyObj → String

/-- Interpreter state: the abstract state the oracles act on, and the error indicator. -/
structure PyState (σ : Type) where
  world : σ
  error : Option PyErr
  deriving DecidableEq, Repr

/-- `PyErr_SetString`. -/
def PyErr_SetString {σ : Type} (st : PyState σ) (exc msg : String) : PyState σ :=
  { st with error := some ⟨exc, msg⟩ }

/-- `PyErr_Occurred`. -/
def PyErr_Occurred {σ : Type} (st : PyState σ) : Bool := st.error.isSome

/-- Undefined behaviour met by the C++ code. -/
inductive Fault where
  | nullDeref
  | outOfBounds (index : Nat)
  | badPointer
  deriving DecidableEq, Repr

/-- Outcome of running a function of the bridge: it returns, or it runs into undefined
behaviour. -/
inductive Outcome (α : Type) where
  | ok (a : α)
  | fault (f : Fault)
  deriving DecidableEq, Repr

/-! ## Wire values -/

/-- Modelled from the spec: the tag of a wire value (`var_type` of `xpy.h`, which is not among
the sources): the nine variants of the tagged union, and `other` for any tag value outside
them, with the integer it converts to. -/
inductive var_type where
  | NONE
  | BOOLEAN
  | INTEGER
  | INT64
  | REAL
  | STRING
  | POINTER
  | PYTHONOBJ
  | SHARPOBJ
  | other (code : Int)
  deriving DecidableEq, Repr

/-- Modelled from the spec: a wire value (`var` of `xpy.h`, which is not among the sources):
a tag with the payload members the code names. `d` is the signed 32-bit member (integer, 0/1
of a bool, string-table index, handle), `d64` the signed 64-bit member, `f` the double, and
`ptr` the pointer member, which the code also names `str` (both name one pointer). Each member
keeps its own value. -/
structure var where
  type : var_type
  d : Int
  d64 : Int
  f : Double
  ptr : Ptr
  deriving DecidableEq, Repr

/-! ## C API of the interpreter, as far as the bridge uses it -/

/-- The terminating character of a C string. -/
def NUL : Char := Char.ofNat 0

/-- A C string read from a buffer holding `s`: the characters before the first NUL
(`strlen`, `strcpy`, `PyUnicode_FromString` all stop there). -/
def c_str (s : String) : String := String.mk (s.toList.takeWhile (fun c => c ≠ NUL))

/-- First character of a C string, `type[0]`: NUL when the string is empty. -/
def c_first (s : String) : Char := (c_str s).toList.headD NUL

/-- `PyBool_Check`. -/
def PyBool_Check : PyObj → Bool
  | .bool _ => true
  | _ => false

/-- `PyLong_Check`: `bool` is a subclass of `int`. -/
def PyLong_Check : PyObj → Bool
  | .bool _ => true
  | .long _ => true
  | _ => false

/-- `PyFloat_Check`. -/
def PyFloat_Check : PyObj → Bool
  | .float _ => true
  | _ => false

/-- `PyNumber_Check`. -/
def PyNumber_Check : PyObj → Bool
  | .bool _ => true
  | .long _ => true
  | .float _ => true
  | .number _ => true
  | _ => false

/-- `PyUnicode_Check`. -/
def PyUnicode_Check : PyObj → Bool
  | .unicode _ => true
  | .surrogates _ => true
  | _ => false

/-- `PyCapsule_CheckExact`. -/
def PyCapsule_CheckExact : PyObj → Bool
  | .capsule _ _ => true
  | _ => false

/-- `PyNumber_Long`: `NULL` stays `NULL`; an `int` or `bool` gives its value; any other object
is converted by the interpreter, or not at all. -/
def PyNumber_Long {σ : Type} (I : Interp σ) : Option PyObj → Option Int
  | none => none
  | some (.long n) => some n
  | some (.bool b) => some (if b then 1 else 0)
  | some o => I.numberLong o

/-- `PyLong_AsLongAndOverflow`: the value and overflow flag 0 when it fits `long`, else -1 and
the flag -1 or 1; no exception is raised. -/
def PyLong_AsLongAndOverflow (w : LongWidth) (n : Int) : Int × Int :=
  if n < LONG_MIN w then (-1, -1)
  else if LONG_MAX w < n then (-1, 1)
  else (n, 0)

/-- `PyLong_AsLongLong`: the value when it fits `long long`, else -1 with `OverflowError`. -/
def PyLong_AsLongLong {σ : Type} (n : Int) (st : PyState σ) : Int × PyState σ :=
  if LLONG_MIN ≤ n ∧ n ≤ LLONG_MAX then (n, st)
  else (-1, PyErr_SetString st "OverflowError" "int too big to convert")

/-- `PyLong_AsLong`: the value when it fits `long`, else -1 with `OverflowError`. -/
def PyLong_AsLong {σ : Type} (w : LongWidth) (n : Int) (st : PyState σ) : Int × PyState σ :=
  if LONG_MIN w ≤ n ∧ n ≤ LONG_MAX w then (n, st)
  else (-1, PyErr_SetString st "OverflowError" "Python int too large to convert to C long")

/-- `PyFloat_AsDouble(PyNumber_Float(pItem))` for an object that passed `PyFloat_Check`. -/
def PyFloat_AsDouble : PyObj → Double
  | .float x => x
  | _ => ⟨0⟩

/-- `PyUnicode_AsUTF8`: the UTF-8 text of a `str`; `NULL` with `UnicodeEncodeError` for a `str`
that holds a lone surrogate; `NULL` with `TypeError` for any other object. -/
def PyUnicode_AsUTF8 {σ : Type} (o : PyObj) (st : PyState σ) : Option String × PyState σ :=
  match o with
  | .unicode s => (some s, st)
  | .surrogates _ => (none, PyErr_SetString st "UnicodeEncodeError" "surrogates not allowed")
  | _ => (none, PyErr_SetString st "TypeError" "bad argument type for built-in operation")

/-- `PyTuple_GetItem`: `NULL` when the value is not a tuple or the index is out of range. -/
def PyTuple_GetItem : PyValue → Nat → Option PyObj
  | .tuple items, i => items.get? i
  | .obj _, _ => none

/-- Reading of a pointer as a C string, or the way it goes wrong. -/
inductive CRead where
  | text (s : String)
  | invalid
  | fault (f : Fault)
  deriving DecidableEq, Repr

/-- What a `const char *` gives when read as a UTF-8 C string: the text up to the first NUL;
bytes that do not decode; and undefined behaviour for `NULL` or an address that is not a
string buffer. -/
def c_read : Ptr → CRead
  | .cstr s => .text (c_str s)
  | .bytes _ => .invalid
  | .null => .fault .nullDeref
  | .addr _ => .fault .badPointer

/-- `PyUnicode_FromString`: a new `str` with the text of the C string; `NULL` with
`UnicodeDecodeError` when the bytes are not valid UTF-8. -/
def PyUnicode_FromString {σ : Type} (p : Ptr) (st : PyState σ) :
    Outcome (Option PyObj × PyState σ) :=
  match c_read p with
  | .text s => .ok (some (.unicode s), st)
  | .invalid => .ok (none, PyErr_SetString st "UnicodeDecodeError" "invalid utf-8")
  | .fault f => .fault f

/-- Run a call result into the state: a raised exception sets the error indicator. -/
def enter {σ α : Type} (r : PyResult α × σ) (st : PyState σ) : Option α × PyState σ :=
  match r with
  | (.value a, w) => (some a, { st with world := w })
  | (.raised e, w) => (none, { world := w, error := some e })

/-! ## `marshal_var` (lines 310-415) -/

/-- `marshal_var(var &v, PyObject *pItem)`: encode one object into the wire value `v`.
Returns the status (1 or -1), the wire value after the call, and the interpreter state. -/
def marshal_var {σ : Type} (w : LongWidth) (I : Interp σ) (v : var) (pItem : PyObj)
    (st : PyState σ) : Outcome (Int × var × PyState σ) :=
  if pItem = PyObj.none then
    .ok (1, { v with type := .NONE }, st)
  else if PyBool_Check pItem then
    .ok (1, { v with type := .BOOLEAN, d := if pItem = PyObj.bool true then 1 else 0 }, st)
  else if PyNumber_Check pItem then
    if PyLong_Check pItem then
      match PyNumber_Long I (some pItem) with
      | none => .fault .nullDeref
      | some pValue =>
        let r := PyLong_AsLongAndOverflow w pValue
        if r.2 ≠ 0 then
          let q := PyLong_AsLongLong pValue st
          .ok (1, { v with type := .INT64, d64 := q.1 }, q.2)
        else
          .ok (1, { v with type := .INTEGER, d := long_to_int r.1 }, st)
    else if PyFloat_Check pItem then
      .ok (1, { v with type := .REAL, f := PyFloat_AsDouble pItem }, st)
    else
      .ok (-1, v, PyErr_SetString st "TypeError" "Unsupported PyNumber argument.")
  else if PyUnicode_Check pItem then
    match PyUnicode_AsUTF8 pItem st with
    | (none, _) => .fault .nullDeref
    | (some s, st1) => .ok (1, { v with type := .STRING, ptr := .cstr (c_str s) }, st1)
  else if PyCapsule_CheckExact pItem then
    match pItem with
    | .capsule p none => .ok (1, { v with type := .POINTER, ptr := p }, st)
    | _ =>
      .ok (1, { v with type := .POINTER, ptr := .null },
        PyErr_SetString st "ValueError" "PyCapsule_GetPointer called with incorrect name")
  else
    match enter (I.proxy pItem st.world) st with
    | (none, st1) => .ok (-1, v, st1)
    | (some pValue, st1) =>
      match PyTuple_GetItem pValue 0 with
      | none => .fault .nullDeref
      | some pRet =>
        match PyUnicode_AsUTF8 pRet st1 with
        | (none, st2) => .ok (-1, v, PyErr_SetString st2 "RuntimeError" "Invalid proxy function.")
        | (some type, st2) =>
          let t := if c_first type = 'S' then var_type.SHARPOBJ else var_type.PYTHONOBJ
          match PyNumber_Long I (PyTuple_GetItem pValue 1) with
          | none => .fault .nullDeref
          | some pRetValue =>
            let q := PyLong_AsLong w pRetValue st2
            .ok (1, { v with type := t, d := long_to_int q.1 }, q.2)

/-! ## `marshal_arguments` (lines 417-461) -/

/-- The loop `for (i = 0; i < size; i++)` of `marshal_arguments`, with `fuel` turns left
(`size - i`): every turn reads item `i`, encodes it into `v[i]`, and stops with -1 on the
first failure or pending exception; after the last turn the result is `(int)size`. -/
def marshal_arguments_loop {σ : Type} (w : LongWidth) (I : Interp σ) (items : List PyObj) :
    Nat → Nat → List var → PyState σ → Outcome (Int × List var × PyState σ)
  | 0, _, v, st => .ok (long_to_int items.length, v, st)
  | fuel + 1, i, v, st =>
    match items.get? i with
    | none => .ok (-1, v, st)
    | some pItem =>
      match v.get? i with
      | none => .fault (.outOfBounds i)
      | some vi =>
        match marshal_var w I vi pItem st with
        | .fault f => .fault f
        | .ok (r, vi1, st1) =>
          if r ≠ 1 then .ok (-1, v.set i vi1, st1)
          else if PyErr_Occurred st1 then .ok (-1, v.set i vi1, st1)
          else marshal_arguments_loop w I items fuel (i + 1) (v.set i vi1) st1

/-- `marshal_arguments(var *v, PyObject *args)`: `v` is the buffer the pointer refers to, with
as many slots as the list has; a slot beyond it is a fault. -/
def marshal_arguments {σ : Type} (w : LongWidth) (I : Interp σ) (v : List var) (args : PyValue)
    (st : PyState σ) : Outcome (Int × List var × PyState σ) :=
  match args with
  | .obj o =>
    match v.get? 0 with
    | none => .fault (.outOfBounds 0)
    | some v0 =>
      match marshal_var w I v0 o st with
      | .fault f => .fault f
      | .ok (r, v1, st1) =>
        if r ≠ 1 then .ok (-1, v.set 0 v1, st1) else .ok (1, v.set 0 v1, st1)
  | .tuple items =>
    if items.length = 0 then
      if ¬ PyErr_Occurred st then
        .ok (-1, v, PyErr_SetString st "TypeError" "You must supply at least one argument.")
      else .ok (-1, v, st)
    else marshal_arguments_loop w I items items.length 0 v st

/-! ## `call_python_function` (lines 188-308) -/

/-- Modelled from the spec: `error_nc(err, msg)` of `xpyhelp.h`, which is not among the
sources: `err` becomes an owned, heap-allocated copy of the C string `msg`, as the `default`
branch of `call_python_function` does by hand. -/
def error_nc (msg : String) : Option String := some (c_str msg)

/-- Modelled from the spec: `fetch_py_exception_msg()` of `xpyhelp.h`, which is not among the
sources: the diagnostic text of the pending exception is captured, and the error indicator
is cleared. -/
def fetch_py_exception_msg {σ : Type} (st : PyState σ) : String × PyState σ :=
  match st.error with
  | some e => (e.msg, { st with error := none })
  | none => ("", st)

/-- What one turn of the argument switch does: it stores an item (possibly `NULL`) into the
argument tuple, or it returns -1 with the message put in `*err`. -/
inductive ArgStep (σ : Type) where
  | item (p : Option PyObj) (st : PyState σ)
  | fail (err : Option String) (st : PyState σ)
  deriving DecidableEq, Repr

/-- The `switch (t)` of `call_python_function` for one wire value: decode it into an object of
the interpreter. `strs` is the string table, an array of `const char *` (`NULL` is `none`),
`strc` its stated size. -/
def call_python_function_arg {σ : Type} (I : Interp σ) (v : var) (strc : Int)
    (strs : Option (List Ptr)) (st : PyState σ) : Outcome (ArgStep σ) :=
  match v.type with
  | .NONE => .ok (.item (some .none) st)
  | .INTEGER => .ok (.item (some (.long v.d)) st)
  | .INT64 => .ok (.item (some (.long v.d64)) st)
  | .REAL => .ok (.item (some (.float v.f)) st)
  | .BOOLEAN =>
    if v.d ≠ 0 then .ok (.item (some (.bool true)) st) else .ok (.item (some (.bool false)) st)
  | .STRING =>
    match strs with
    | some table =>
      if v.d < 0 ∨ v.d ≥ strc then .ok (.fail (error_nc "Invalid string id") st)
      else
        match table.get? v.d.toNat with
        | none => .fault (.outOfBounds v.d.toNat)
        | some p =>
          match PyUnicode_FromString p st with
          | .fault f => .fault f
          | .ok (pValue, st1) => .ok (.item pValue st1)
    | none =>
      match PyUnicode_FromString v.ptr st with
      | .fault f => .fault f
      | .ok (pValue, st1) => .ok (.item pValue st1)
  | .POINTER =>
    if v.ptr = .null then
      .ok (.item none (PyErr_SetString st "ValueError" "PyCapsule_New called with null pointer"))
    else .ok (.item (some (.capsule v.ptr none)) st)
  | .PYTHONOBJ =>
    match enter (I.object (.unicode "P") (.long v.d) st.world) st with
    | (none, st1) => .ok (.fail (error_nc "call sharp._object failed") st1)
    | (some pValue, st1) => .ok (.item (some pValue) st1)
  | .SHARPOBJ =>
    match enter (I.object (.unicode "S") (.long v.d) st.world) st with
    | (none, st1) => .ok (.fail (error_nc "call sharp._object failed") st1)
    | (some pValue, st1) => .ok (.item (some pValue) st1)
  | .other code => .ok (.fail (some (c_str ("Invalid type " ++ toString code))) st)

/-- How the argument loop ends: all items stored, or -1 with a message. -/
inductive ArgLoop (σ : Type) where
  | done (pArgs : List (Option PyObj)) (st : PyState σ)
  | fail (err : Option String) (st : PyState σ)
  deriving DecidableEq, Repr

/-- The loop `for (int i = 0; i < argc; i++)` of `call_python_function`, with `fuel` turns
left (`argc - i`): `argv[i]` is decoded and stored as item `i` of `pArgs`. -/
def call_python_function_loop {σ : Type} (I : Interp σ) (argv : List var) (strc : Int)
    (strs : Option (List Ptr)) :
    Nat → Nat → List (Option PyObj) → PyState σ → Outcome (ArgLoop σ)
  | 0, _, pArgs, st => .ok (.done pArgs st)
  | fuel + 1, i, pArgs, st =>
    match argv.get? i with
    | none => .fault (.outOfBounds i)
    | some v =>
      match call_python_function_arg I v strc strs st with
      | .fault f => .fault f
      | .ok (.fail e st1) => .ok (.fail e st1)
      | .ok (.item p st1) =>
        call_python_function_loop I argv strc strs fuel (i + 1) (pArgs.set i p) st1

/-- New references to the items of a tuple, in order: `none` when an item is `NULL`. -/
def new_references : List (Option PyObj) → Option (List PyObj)
  | [] => some []
  | none :: _ => none
  | some x :: rest =>
    match new_references rest with
    | some l => some (x :: l)
    | none => none

/-- `PySequence_GetSlice(pArgs, 1, PySequence_Size(pArgs))`: the items after the first; taking
a reference to a `NULL` item is a fault. -/
def PySequence_GetSlice_from1 (pArgs : List (Option PyObj)) : Outcome (List PyObj) :=
  match new_references (pArgs.drop 1) with
  | some l => .ok l
  | none => .fault .nullDeref

/-- `call_python_function(argc, argv, strc, strs, err)`, entered with `*err == 0`. `argv` is
the caller's array, with as many slots as the list has. Returns the status, the array after
the call, `*err`, and the interpreter state. -/
def call_python_function {σ : Type} (w : LongWidth) (I : Interp σ) (argc : Int)
    (argv : List var) (strc : Int) (strs : Option (List Ptr)) (st : PyState σ) :
    Outcome (Int × List var × Option String × PyState σ) :=
  if argc ≤ 0 then .ok (-1, argv, error_nc "Need Function", st)
  else
    match argv.get? 0 with
    | none => .fault (.outOfBounds 0)
    | some a0 =>
      if a0.type ≠ .PYTHONOBJ then .ok (-1, argv, error_nc "Need Function", st)
      else
        match call_python_function_loop I argv strc strs argc.toNat 0
            (List.replicate argc.toNat none) st with
        | .fault f => .fault f
        | .ok (.fail e st1) => .ok (-1, argv, e, st1)
        | .ok (.done pArgs st1) =>
          match pArgs.get? 0 with
          | some (some pFunc) =>
            let called : Outcome (Option PyValue × PyState σ) :=
              if argc = 1 then .ok (enter (I.call pFunc [] st1.world) st1)
              else
                match PySequence_GetSlice_from1 pArgs with
                | .fault f => .fault f
                | .ok pPArgs => .ok (enter (I.call pFunc pPArgs st1.world) st1)
            match called with
            | .fault f => .fault f
            | .ok (none, st2) =>
              let m := fetch_py_exception_msg st2
              .ok (-1, argv, error_nc ("Call python function failed.\n" ++ m.1), m.2)
            | .ok (some pValue, st2) =>
              match marshal_arguments w I argv pValue st2 with
              | .fault f => .fault f
              | .ok (result, argv1, st3) => .ok (result, argv1, none, st3)
          | _ => .fault .nullDeref

/-! ## `xpy_csharpcall` (lines 463-482) -/

/-- `MAXRET`. -/
def MAXRET : Nat := 256

/-- One invocation `sharp_cb(argsnum, arg, &sp)` of the host callback: the argument count and
the array it is given. -/
structure Invocation where
  argsnum : Int
  arg : List var
  deriving DecidableEq, Repr

/-- `xpy_csharpcall(self, args)`. `stack` gives the contents of the uninitialised local array
`var arg[MAXRET]`, `sharp_cb` tells whether a host callback is registered. Returns the result
(`NULL` is `none`), the invocations of the host callback (argument count and array), and
the interpreter state. -/
def xpy_csharpcall {σ : Type} (w : LongWidth) (I : Interp σ) (sharp_cb : Bool)
    (stack : Nat → var) (args : PyValue) (st : PyState σ) :
    Outcome (Option PyObj × List Invocation × PyState σ) :=
  let arg := (List.range MAXRET).map stack
  match marshal_arguments w I arg args st with
  | .fault f => .fault f
  | .ok (argsnum, arg1, st1) =>
    if argsnum = -1 then .ok (none, [], st1)
    else if sharp_cb then .ok (some .none, [⟨argsnum, arg1⟩], st1)
    else .ok (some .none, [], st1)

/-! ## `sharp_collect_garbage` (lines 69-106) -/

/-- The loop of `sharp_collect_garbage` with `fuel` turns left (`n - i`). `garbage i` is what
the call number `i` of `func_garbage` returns, `result` the memory behind the pointer. Returns
`ret`, the memory, and the number of calls made. -/
def sharp_collect_garbage_loop {σ : Type} (w : LongWidth) (I : Interp σ)
    (garbage : Nat → PyResult PyObj) :
    Nat → Nat → Nat → (Nat → Int) → Outcome (Int × (Nat → Int) × Nat)
  | 0, i, ret, result => .ok (ret, result, i)
  | fuel + 1, i, ret, result =>
    match garbage i with
    | .raised _ => .ok (ret, result, i + 1)
    | .value pValue =>
      if pValue = PyObj.none then .ok (ret, result, i + 1)
      else
        match PyNumber_Long I (some pValue) with
        | none => .fault .nullDeref
        | some pNum =>
          let r := PyLong_AsLongAndOverflow w pNum
          if r.2 ≠ 0 then sharp_collect_garbage_loop w I garbage fuel (i + 1) ret result
          else
            sharp_collect_garbage_loop w I garbage fuel (i + 1) (ret + 1)
              (Function.update result ret (long_to_int r.1))

/-- `sharp_collect_garbage(n, result)`. -/
def sharp_collect_garbage {σ : Type} (w : LongWidth) (I : Interp σ)
    (garbage : Nat → PyResult PyObj) (n : Int) (result : Nat → Int) :
    Outcome (Int × (Nat → Int) × Nat) :=
  sharp_collect_garbage_loop w I garbage n.toNat 0 0 result

/-! ## `get_python_function` (lines 108-186) -/

/-- `get_python_function(module, funcname, id)`: returns the error message (`NULL` is `none`),
`*id`, and the interpreter state. -/
def get_python_function {σ : Type} (w : LongWidth) (I : Interp σ) (module funcname : String)
    (st : PyState σ) : Outcome (Option String × Int × PyState σ) :=
  match enter (I.importModule module st.world) st with
  | (none, st1) => .ok (error_nc "Failed to load module: \"sharp\"", 0, st1)
  | (some pModule, st1) =>
    match enter (I.getAttr pModule funcname st1.world) st1 with
    | (none, st2) => .ok (error_nc ("Cannot find function \"" ++ funcname ++ "\""), 0, st2)
    | (some pFunc, st2) =>
      if ¬ I.callable pFunc then
        .ok (error_nc ("Invalid type " ++ I.typeStr pFunc ++ " for [" ++ module ++ "."
          ++ funcname ++ "]"), 0, st2)
      else
        match enter (I.proxy pFunc st2.world) st2 with
        | (none, st3) => .ok (error_nc "call sharp._proxy failed", 0, st3)
        | (some pValue, st3) =>
          match PyTuple_GetItem pValue 0 with
          | none => .fault .nullDeref
          | some pRet =>
            match PyUnicode_AsUTF8 pRet st3 with
            | (none, st4) => .ok (error_nc "Not a python object", 0, st4)
            | (some type, st4) =>
              if c_first type ≠ 'P' then .ok (error_nc "Not a python object", 0, st4)
              else
                match PyNumber_Long I (PyTuple_GetItem pValue 1) with
                | none => .fault .nullDeref
                | some n =>
                  let q := PyLong_AsLong w n st4
                  .ok (none, long_to_int q.1, q.2)

/-! ## Statements of the specification, in its own words -/

/-- The scalars the value codec carries faithfully: a bool, an integer in signed 32-bit range,
an integer in signed 64-bit range when `long` is 32 bits wide, a double, and a text that can
be encoded as UTF-8 and has no embedded NUL. -/
def representable (w : LongWidth) : PyObj → Prop
  | .bool _ => True
  | .long n => (INT_MIN ≤ n ∧ n ≤ INT_MAX) ∨ (w = .bits32 ∧ LLONG_MIN ≤ n ∧ n ≤ LLONG_MAX)
  | .float _ => True
  | .unicode s => NUL ∉ s.toList
  | _ => False

/-- A response of the host's collect-garbage function that ends the drain: a failed call, or
the empty sentinel `None`. -/
def isSentinel : PyResult PyObj → Bool
  | .raised _ => true
  | .value o => o = PyObj.none

/-- The handle a response delivers: the number it converts to, as a C `int`, when that number
fits a C `long`; nothing for a sentinel, and nothing for a number that overflows `long`. -/
def storedHandle {σ : Type} (w : LongWidth) (I : Interp σ) : PyResult PyObj → Option Int
  | .raised _ => none
  | .value o =>
    if o = PyObj.none then none
    else
      match PyNumber_Long I (some o) with
      | some n => if LONG_MIN w ≤ n ∧ n ≤ LONG_MAX w then some (long_to_int n) else none
      | none => none

/-- The handles delivered by the responses number `i`, ..., `i + k - 1`, in order. -/
def drained {σ : Type} (w : LongWidth) (I : Interp σ) (garbage : Nat → PyResult PyObj)
    (i k : Nat) : List Int :=
  (List.range' i k).filterMap (fun j => storedHandle w I (garbage j))

/-- The memory `result` with the values `hs` written from slot `ret` on. -/
def written (result : Nat → Int) (ret : Nat) (hs : List Int) : Nat → Int :=
  fun j => if ret ≤ j ∧ j < ret + hs.length then hs.getD (j - ret) 0 else result j

/-- Three responses of a collect-garbage function: the integer `2^63`, then the handle 5, then
the empty sentinel `None` ever after. -/
def garbage3 : Nat → PyResult PyObj
  | 0 => .value (.long 9223372036854775808)
  | 1 => .value (.long 5)
  | _ => .value .none

/-! ## A concrete interpreter, for evaluating the code -/

/-- An interpreter with a module `mathlib` holding the function `add` (object 100) and the
float `pi`. Handles 1 to 5 resolve to `add`, to a function returning the empty tuple, to one
returning a complex number, to one returning a pair and to one returning object 9. The proxy knows objects 100 (kind
`P`), 7 (kind `X`), 8 (kind `S`) and 9 (kind `P`, handle `2^63`). The state counts the calls. -/
def demo : Interp Nat where
  proxy := fun o w =>
    match o with
    | .object 100 => (.value (.tuple [.unicode "P", .long 1]), w + 1)
    | .object 7 => (.value (.tuple [.unicode "X", .long 7]), w + 1)
    | .object 8 => (.value (.tuple [.unicode "S", .long 8]), w + 1)
    | .object 9 => (.value (.tuple [.unicode "P", .long 9223372036854775808]), w + 1)
    | _ => (.raised ⟨"TypeError", "cannot proxy"⟩, w + 1)
  object := fun kind id w =>
    match kind, id with
    | .unicode "P", .long 1 => (.value (.object 100), w + 1)
    | .unicode "P", .long 2 => (.value (.object 101), w + 1)
    | .unicode "P", .long 3 => (.value (.object 102), w + 1)
    | .unicode "P", .long 4 => (.value (.object 103), w + 1)
    | .unicode "P", .long 5 => (.value (.object 104), w + 1)
    | _, _ => (.raised ⟨"KeyError", "no such object"⟩, w + 1)
  call := fun f args w =>
    match f, args with
    | .object 100, [.long a, .long b] => (.value (.obj (.long (a + b))), w + 1)
    | .object 101, _ => (.value (.tuple []), w + 1)
    | .object 102, _ => (.value (.obj (.number 0)), w + 1)
    | .object 103, _ => (.value (.tuple [.none, .none]), w + 1)
    | .object 104, _ => (.value (.obj (.object 9)), w + 1)
    | _, _ => (.raised ⟨"TypeError", "bad call"⟩, w + 1)
  numberLong := fun _ => none
  importModule := fun m w =>
    if m = "mathlib" then (.value (.object 50), w + 1)
    else (.raised ⟨"ModuleNotFoundError", "No module named " ++ m⟩, w + 1)
  getAttr := fun o name w =>
    if o = .object 50 ∧ name = "add" then (.value (.object 100), w + 1)
    else if o = .object 50 ∧ name = "big" then (.value (.object 9), w + 1)
    else if o = .object 50 ∧ name = "pi" then (.value (.float ⟨0⟩), w + 1)
    else (.raised ⟨"AttributeError", name⟩, w + 1)
  callable := fun o => o = .object 100 ∨ o = .object 9
  typeStr := fun _ => "float"

/-- A wire value with every member zero. -/
def var0 : var := ⟨.NONE, 0, 0, ⟨0⟩, .null⟩

/-- The interpreter state before any call, with no exception pending. -/
def st0 : PyState Nat := ⟨0, none⟩

/-! ## The value codec: `marshal_var` and the argument switch -/

theorem long_to_int_of_fits (n : Int) (h : INT_MIN ≤ n ∧ n ≤ INT_MAX) : long_to_int n = n := by
  unfold INT_MIN INT_MAX at h
  unfold long_to_int
  omega

theorem c_str_of_no_NUL (s : String) (h : NUL ∉ s.toList) : c_str s = s := by
  unfold c_str
  have : s.toList.takeWhile (fun c => decide (c ≠ NUL)) = s.toList := by
    rw [List.takeWhile_eq_self_iff]
    intro c hc
    simp only [ne_eq, decide_not, Bool.not_eq_true', decide_eq_false_iff_not]
    rintro rfl
    exact h hc
  rw [this]
  cases s
  rfl

theorem PyLong_AsLongAndOverflow_fits (w : LongWidth) (n : Int)
    (h : LONG_MIN w ≤ n ∧ n ≤ LONG_MAX w) : PyLong_AsLongAndOverflow w n = (n, 0) := by
  unfold PyLong_AsLongAndOverflow
  rw [if_neg (by omega), if_neg (by omega)]

theorem PyLong_AsLongAndOverflow_overflow (w : LongWidth) (n : Int)
    (h : ¬ (LONG_MIN w ≤ n ∧ n ≤ LONG_MAX w)) : (PyLong_AsLongAndOverflow w n).2 ≠ 0 := by
  unfold PyLong_AsLongAndOverflow
  split_ifs with h1 h2
  · simp
  · simp
  · exact absurd ⟨by omega, by omega⟩ h

theorem int_fits_long (w : LongWidth) (n : Int) (h : INT_MIN ≤ n ∧ n ≤ INT_MAX) :
    LONG_MIN w ≤ n ∧ n ≤ LONG_MAX w := by
  unfold INT_MIN INT_MAX at h
  unfold LONG_MIN LONG_MAX
  cases w <;> simp [LongWidth.bits] <;> omega

theorem marshal_var_long {σ : Type} (w : LongWidth) (I : Interp σ) (v : var)
    (n : Int) (st : PyState σ) (hn : LLONG_MIN ≤ n ∧ n ≤ LLONG_MAX)
    (hw : w = .bits32 ∨ (INT_MIN ≤ n ∧ n ≤ INT_MAX)) :
    marshal_var w I v (.long n) st =
      .ok (1, (if INT_MIN ≤ n ∧ n ≤ INT_MAX then { v with type := .INTEGER, d := n }
               else { v with type := .INT64, d64 := n }), st) := by
  by_cases h32 : INT_MIN ≤ n ∧ n ≤ INT_MAX
  · have hfit := long_to_int_of_fits n h32
    have hov := PyLong_AsLongAndOverflow_fits w n (int_fits_long w n h32)
    simp [marshal_var, PyBool_Check, PyNumber_Check, PyLong_Check, PyNumber_Long, hov, hfit,
      h32]
  · rcases hw with hw | hw
    · subst hw
      have hov : (PyLong_AsLongAndOverflow .bits32 n).2 ≠ 0 := by
        apply PyLong_AsLongAndOverflow_overflow
        unfold INT_MIN INT_MAX at h32
        unfold LONG_MIN LONG_MAX
        simp only [LongWidth.bits]
        omega
      have hll : PyLong_AsLongLong n st = (n, st) := by
        unfold PyLong_AsLongLong
        simp [hn]
      simp [marshal_var, PyBool_Check, PyNumber_Check, PyLong_Check, PyNumber_Long, hov, hll,
        h32]
    · exact absurd hw h32

/-- C2 (as amended). Overflow policy of `marshal_var` for an integer `n` in the signed 64-bit
range, when `long` is 32 bits wide or `n` is in the signed 32-bit range: the status is 1, no
exception is raised, and the wire value is `INTEGER` with `d = n` when `n` is in the signed
32-bit range, and `INT64` with `d64 = n` otherwise. -/
theorem marshal_var_integer_policy {σ : Type} (w : LongWidth) (I : Interp σ) (v : var)
    (n : Int) (st : PyState σ) (hn : LLONG_MIN ≤ n ∧ n ≤ LLONG_MAX)
    (hw : w = .bits32 ∨ (INT_MIN ≤ n ∧ n ≤ INT_MAX)) :
    marshal_var w I v (.long n) st =
      .ok (1, (if INT_MIN ≤ n ∧ n ≤ INT_MAX then { v with type := .INTEGER, d := n }
               else { v with type := .INT64, d64 := n }), st) :=
  marshal_var_long w I v n st hn hw

/-- C2 (witness). With a 32-bit `long`, `2^31` is encoded as `INT64` with payload `2^31`. -/
theorem marshal_var_integer_policy_witness :
    (LLONG_MIN ≤ (2147483648 : Int) ∧ (2147483648 : Int) ≤ LLONG_MAX) ∧
    marshal_var .bits32 demo var0 (.long 2147483648) st0 =
      .ok (1, { var0 with type := .INT64, d64 := 2147483648 }, st0) :=
  ⟨by decide, marshal_var_integer_policy .bits32 demo var0 2147483648 st0 (by decide)
    (Or.inl rfl)⟩

/-- C2 (counterexample). The integer `2^63` is encoded with status 1 as a wire value whose
payload is -1, for either width of `long`: `INT64` with `d64 = -1` when `long` has 32 bits,
and likewise when it has 64 bits; and with a 64-bit `long` the integer `2^31` is encoded as
`INTEGER` with `d = -2^31`. -/
theorem marshal_var_integer_payload_differs :
    marshal_var .bits32 demo var0 (.long 9223372036854775808) st0 =
      .ok (1, { var0 with type := .INT64, d64 := -1 },
        PyErr_SetString st0 "OverflowError" "int too big to convert")
    ∧ marshal_var .bits64 demo var0 (.long 9223372036854775808) st0 =
      .ok (1, { var0 with type := .INT64, d64 := -1 },
        PyErr_SetString st0 "OverflowError" "int too big to convert")
    ∧ marshal_var .bits64 demo var0 (.long 2147483648) st0 =
      .ok (1, { var0 with type := .INTEGER, d := -2147483648 }, st0) := by
  decide

theorem marshal_var_bool {σ : Type} (w : LongWidth) (I : Interp σ) (v : var) (b : Bool)
    (st : PyState σ) :
    marshal_var w I v (.bool b) st =
      .ok (1, { v with type := .BOOLEAN, d := if b then 1 else 0 }, st) := by
  cases b <;> simp [marshal_var, PyBool_Check]

theorem marshal_var_float {σ : Type} (w : LongWidth) (I : Interp σ) (v : var) (x : Double)
    (st : PyState σ) :
    marshal_var w I v (.float x) st = .ok (1, { v with type := .REAL, f := x }, st) := by
  simp [marshal_var, PyBool_Check, PyNumber_Check, PyLong_Check, PyFloat_Check,
    PyFloat_AsDouble]

theorem marshal_var_unicode {σ : Type} (w : LongWidth) (I : Interp σ) (v : var) (s : String)
    (st : PyState σ) :
    marshal_var w I v (.unicode s) st =
      .ok (1, { v with type := .STRING, ptr := .cstr (c_str s) }, st) := by
  simp [marshal_var, PyBool_Check, PyNumber_Check, PyUnicode_Check, PyUnicode_AsUTF8]

/-- C1 (as amended). Round trip of the value codec: for every representable scalar (a bool, an
integer in signed 32-bit range, an integer in signed 64-bit range when `long` is 32 bits wide,
a double, a text without an embedded NUL), `marshal_var` succeeds without touching the
interpreter state, and decoding the wire value it wrote, with no string table, gives back the
very same object, of the same kind. -/
theorem codec_round_trip {σ : Type} (w : LongWidth) (I : Interp σ) (v : var) (pItem : PyObj)
    (strc : Int) (st : PyState σ) (h : representable w pItem) :
    ∃ v1, marshal_var w I v pItem st = .ok (1, v1, st) ∧
      call_python_function_arg I v1 strc none st = .ok (.item (some pItem) st) := by
  cases pItem with
  | none => exact absurd h (by simp [representable])
  | bool b =>
    refine ⟨_, marshal_var_bool w I v b st, ?_⟩
    cases b <;> simp [call_python_function_arg]
  | long n =>
    have hn : LLONG_MIN ≤ n ∧ n ≤ LLONG_MAX := by
      rcases h with h | h
      · unfold INT_MIN INT_MAX at h
        unfold LLONG_MIN LLONG_MAX
        omega
      · exact h.2
    have hw : w = .bits32 ∨ (INT_MIN ≤ n ∧ n ≤ INT_MAX) := by
      rcases h with h | h
      · exact Or.inr h
      · exact Or.inl h.1
    refine ⟨_, marshal_var_long w I v n st hn hw, ?_⟩
    by_cases h32 : INT_MIN ≤ n ∧ n ≤ INT_MAX
    · simp [h32, call_python_function_arg]
    · simp [h32, call_python_function_arg]
  | float x =>
    exact ⟨_, marshal_var_float w I v x st, by simp [call_python_function_arg]⟩
  | number id => exact absurd h (by simp [representable])
  | unicode s =>
    have hs : c_str s = s := c_str_of_no_NUL s h
    refine ⟨_, marshal_var_unicode w I v s st, ?_⟩
    simp [call_python_function_arg, PyUnicode_FromString, c_read, hs]
  | surrogates id => exact absurd h (by simp [representable])
  | capsule p name => exact absurd h (by simp [representable])
  | object id => exact absurd h (by simp [representable])

/-- C1 (witness). The integer `5000000000` round-trips when `long` is 32 bits wide. -/
theorem codec_round_trip_witness :
    representable .bits32 (.long 5000000000) ∧
    ∃ v1, marshal_var .bits32 demo var0 (.long 5000000000) st0 = .ok (1, v1, st0) ∧
      call_python_function_arg demo v1 0 none st0 = .ok (.item (some (.long 5000000000)) st0) :=
  ⟨Or.inr (by decide), codec_round_trip .bits32 demo var0 (.long 5000000000) 0 st0
    (Or.inr (by decide))⟩

/-- C1 (counterexample). The text `a`, NUL, `b` is encoded as the buffer `a` and comes back as
the text `a`; with a 64-bit `long` the integer `2^31`, which is in signed 64-bit range, is
encoded as `INTEGER` with `d = -2^31` and comes back as `-2^31`; and for a text holding a lone
surrogate `marshal_var` hands the `NULL` of `PyUnicode_AsUTF8` to `strlen`. -/
theorem codec_round_trip_fails :
    (marshal_var .bits64 demo var0 (.unicode "a\x00b") st0 =
        .ok (1, { var0 with type := .STRING, ptr := .cstr "a" }, st0)
      ∧ call_python_function_arg demo { var0 with type := .STRING, ptr := .cstr "a" } 0 none st0
        = .ok (.item (some (.unicode "a")) st0)
      ∧ PyObj.unicode "a" ≠ PyObj.unicode "a\x00b")
    ∧ (marshal_var .bits64 demo var0 (.long 2147483648) st0 =
        .ok (1, { var0 with type := .INTEGER, d := -2147483648 }, st0)
      ∧ call_python_function_arg demo { var0 with type := .INTEGER, d := -2147483648 } 0 none st0
        = .ok (.item (some (.long (-2147483648))) st0)
      ∧ PyObj.long (-2147483648) ≠ PyObj.long 2147483648)
    ∧ marshal_var .bits64 demo var0 (.surrogates 0) st0 = .fault .nullDeref := by
  decide

/-- C7 (the code at the failing input). The proxy answers `("X", 7)` for object 7, a kind that
is neither `P` nor `S`; `marshal_var` returns 1 and writes the reference wire value
`PYTHONOBJ` with handle 7. -/
theorem marshal_var_unrecognized_kind :
    demo.proxy (.object 7) 0 = (.value (.tuple [.unicode "X", .long 7]), 1)
    ∧ marshal_var .bits64 demo var0 (.object 7) st0 =
      .ok (1, { var0 with type := .PYTHONOBJ, d := 7 }, ⟨1, none⟩) := by
  decide

/-! ## Failures of `call_python_function` and the capacity of the buffers -/

/-- C3 (the code at the failing input). The reverse-call entry point, given the empty tuple,
returns `NULL` with the fixed message raised and does not invoke the callback. But when the
callee of `call_python_function` (handle 2) returns the empty tuple, `call_python_function`
returns -1 with `*err` still null: the fixed message stays in the interpreter's error
indicator and is not reported through `*err`. -/
theorem call_python_function_empty_result :
    xpy_csharpcall .bits64 demo true (fun _ => var0) (.tuple []) st0 =
      .ok (none, [], ⟨0, some ⟨"TypeError", "You must supply at least one argument."⟩⟩)
    ∧ demo.call (.object 101) [] 1 = (.value (.tuple []), 2)
    ∧ call_python_function .bits64 demo 1 [{ var0 with type := .PYTHONOBJ, d := 2 }] 0 none st0 =
      .ok (-1, [{ var0 with type := .PYTHONOBJ, d := 2 }], none,
        ⟨2, some ⟨"TypeError", "You must supply at least one argument."⟩⟩) := by
  decide

/-- C4 (the code at the failing input). The callee (handle 3) returns a complex number, which
the codec cannot encode: `call_python_function` returns -1 and `*err` is null. -/
theorem call_python_function_failure_without_message :
    demo.call (.object 102) [] 1 = (.value (.obj (.number 0)), 2)
    ∧ call_python_function .bits64 demo 1 [{ var0 with type := .PYTHONOBJ, d := 3 }] 0 none st0 =
      .ok (-1, [{ var0 with type := .PYTHONOBJ, d := 3 }], none,
        ⟨2, some ⟨"TypeError", "Unsupported PyNumber argument."⟩⟩) := by
  decide

set_option maxRecDepth 100000 in
/-- C8 (the code at the failing input). Given a tuple of 257 `None`, `xpy_csharpcall` is not
stopped by the capacity `MAXRET = 256` of its array: it goes on to slot 256, past the end.
And when the callee (handle 4) returns a pair while the caller's array has one slot,
`call_python_function` goes on to slot 1, past the end. -/
theorem marshal_arguments_past_capacity :
    xpy_csharpcall .bits64 demo true (fun _ => var0) (.tuple (List.replicate 257 .none)) st0 =
      .fault (.outOfBounds 256)
    ∧ call_python_function .bits64 demo 1 [{ var0 with type := .PYTHONOBJ, d := 4 }] 0 none st0 =
      .fault (.outOfBounds 1) := by
  decide

/-! ## `sharp_collect_garbage` -/

theorem written_nil (result : Nat → Int) (ret : Nat) : written result ret [] = result := by
  funext j
  simp [written]

theorem written_cons (result : Nat → Int) (ret : Nat) (x : Int) (hs : List Int) :
    written (Function.update result ret x) (ret + 1) hs = written result ret (x :: hs) := by
  funext j
  unfold written
  by_cases h1 : j < ret
  · have : j ≠ ret := by omega
    simp [Function.update, this]
    rw [if_neg (by omega), if_neg (by omega)]
  · by_cases h2 : j = ret
    · subst h2
      simp [Function.update]
    · have h3 : j - ret = (j - (ret + 1)) + 1 := by omega
      simp only [Function.update, h2, List.length_cons, h3, List.getD_cons_succ]
      by_cases h4 : j < ret + 1 + hs.length
      · rw [if_pos ⟨by omega, h4⟩, if_pos ⟨by omega, by omega⟩]
      · rw [if_neg (by omega), if_neg (by omega)]
        simp

theorem drained_zero {σ : Type} (w : LongWidth) (I : Interp σ) (garbage : Nat → PyResult PyObj)
    (i : Nat) : drained w I garbage i 0 = [] := by
  simp [drained]

theorem drained_succ {σ : Type} (w : LongWidth) (I : Interp σ) (garbage : Nat → PyResult PyObj)
    (i k : Nat) :
    drained w I garbage i (k + 1) =
      (storedHandle w I (garbage i)).toList ++ drained w I garbage (i + 1) k := by
  unfold drained
  rw [List.range'_succ, List.filterMap_cons]
  cases storedHandle w I (garbage i) <;> simp

theorem sharp_collect_garbage_loop_spec {σ : Type} (w : LongWidth) (I : Interp σ)
    (garbage : Nat → PyResult PyObj) (fuel : Nat) :
    ∀ (i ret : Nat) (result : Nat → Int),
      (∀ k o, i ≤ k → k < i + fuel → (∀ j, i ≤ j → j < k → isSentinel (garbage j) = false) →
        garbage k = .value o → o ≠ PyObj.none → PyNumber_Long I (some o) ≠ none) →
      ∃ k, k ≤ fuel ∧
        sharp_collect_garbage_loop w I garbage fuel i ret result =
          .ok (((ret + (drained w I garbage i k).length : Nat) : Int),
            written result ret (drained w I garbage i k), i + k) ∧
        (∀ j, i ≤ j → j + 1 < i + k → isSentinel (garbage j) = false) ∧
        (k < fuel → 0 < k ∧ isSentinel (garbage (i + k - 1)) = true) := by
  induction fuel with
  | zero =>
    intro i ret result _
    refine ⟨0, le_refl _, ?_, ?_, ?_⟩
    · simp [sharp_collect_garbage_loop, drained_zero, written_nil]
    · intro j h1 h2
      omega
    · intro h
      omega
  | succ fuel ih =>
    intro i ret result hconv
    cases hg : garbage i with
    | raised e =>
      refine ⟨1, by omega, ?_, ?_, ?_⟩
      · simp [sharp_collect_garbage_loop, hg, drained_succ, drained_zero, storedHandle,
          written_nil]
      · intro j h1 h2
        omega
      · intro _
        simp [hg, isSentinel]
    | value o =>
      by_cases ho : o = PyObj.none
      · refine ⟨1, by omega, ?_, ?_, ?_⟩
        · simp [sharp_collect_garbage_loop, hg, ho, drained_succ, drained_zero, storedHandle,
            written_nil]
        · intro j h1 h2
          omega
        · intro _
          simp [hg, isSentinel, ho]
      · have hc := hconv i o (le_refl _) (by omega) (fun j h1 h2 => by omega) hg ho
        obtain ⟨n, hn⟩ := Option.ne_none_iff_exists'.mp hc
        have hsent : isSentinel (garbage i) = false := by simp [hg, isSentinel, ho]
        have hconv1 : ∀ k o, i + 1 ≤ k → k < i + 1 + fuel →
            (∀ j, i + 1 ≤ j → j < k → isSentinel (garbage j) = false) →
            garbage k = .value o → o ≠ PyObj.none → PyNumber_Long I (some o) ≠ none := by
          intro k o h1 h2 h3
          refine hconv k o (by omega) (by omega) ?_
          intro j hj1 hj2
          by_cases hj : j = i
          · rw [hj]
            exact hsent
          · exact h3 j (by omega) hj2
        by_cases hfit : LONG_MIN w ≤ n ∧ n ≤ LONG_MAX w
        · obtain ⟨k, hk, heq, hno, hstop⟩ :=
            ih (i + 1) (ret + 1) (Function.update result ret (long_to_int n)) hconv1
          refine ⟨k + 1, by omega, ?_, ?_, ?_⟩
          · have hov := PyLong_AsLongAndOverflow_fits w n hfit
            have hsh : storedHandle w I (garbage i) = some (long_to_int n) := by
              simp [storedHandle, hg, ho, hn, hfit]
            have hstep : sharp_collect_garbage_loop w I garbage (fuel + 1) i ret result =
                sharp_collect_garbage_loop w I garbage fuel (i + 1) (ret + 1)
                  (Function.update result ret (long_to_int n)) := by
              simp [sharp_collect_garbage_loop, hg, ho, hn, hov]
            rw [hstep, heq, drained_succ, hsh]
            simp [written_cons]
            omega
          · intro j h1 h2
            by_cases hj : j = i
            · rw [hj]
              exact hsent
            · exact hno j (by omega) (by omega)
          · intro hlt
            obtain ⟨hpos, hs⟩ := hstop (by omega)
            refine ⟨by omega, ?_⟩
            have : i + (k + 1) - 1 = i + 1 + k - 1 := by omega
            rw [this]
            exact hs
        · obtain ⟨k, hk, heq, hno, hstop⟩ := ih (i + 1) ret result hconv1
          refine ⟨k + 1, by omega, ?_, ?_, ?_⟩
          · have hov := PyLong_AsLongAndOverflow_overflow w n hfit
            have hsh : storedHandle w I (garbage i) = none := by
              simp [storedHandle, hg, ho, hn, hfit]
            have hstep : sharp_collect_garbage_loop w I garbage (fuel + 1) i ret result =
                sharp_collect_garbage_loop w I garbage fuel (i + 1) ret result := by
              simp [sharp_collect_garbage_loop, hg, ho, hn, hov]
            rw [hstep, heq, drained_succ, hsh]
            simp
            omega
          · intro j h1 h2
            by_cases hj : j = i
            · rw [hj]
              exact hsent
            · exact hno j (by omega) (by omega)
          · intro hlt
            obtain ⟨hpos, hs⟩ := hstop (by omega)
            refine ⟨by omega, ?_⟩
            have : i + (k + 1) - 1 = i + 1 + k - 1 := by omega
            rw [this]
            exact hs

theorem drained_length_le {σ : Type} (w : LongWidth) (I : Interp σ)
    (garbage : Nat → PyResult PyObj) (i k : Nat) : (drained w I garbage i k).length ≤ k := by
  unfold drained
  calc (List.filterMap (fun j => storedHandle w I (garbage j)) (List.range' i k)).length
      ≤ (List.range' i k).length := List.length_filterMap_le _ _
    _ = k := List.length_range' _ _ _

/-- C5 (as amended). Garbage drain bound: when every response among the first `n` that no
sentinel precedes is a failed call, `None`, or an object that converts to an integer,
`sharp_collect_garbage(n, result)` returns; it makes `calls` calls with `calls <= max(n, 0)`; it returns the count `r` of the
handles it stored, `0 <= r <= max(n, 0)`; it writes exactly `result[0..r-1]`, which receive, in
order, the responses that fit a C `long` (each stored as a C `int`), a response that overflows
`long` being dropped; no response before the last call is a sentinel (no call follows a failed
call or a `None`); and it makes fewer than `n` calls only when the last response is a
sentinel. -/
theorem sharp_collect_garbage_drain {σ : Type} (w : LongWidth) (I : Interp σ)
    (garbage : Nat → PyResult PyObj) (n : Int) (result : Nat → Int)
    (hconv : ∀ (k : Nat) (o : PyObj), (k : Int) < n →
      (∀ j, j < k → isSentinel (garbage j) = false) → garbage k = .value o → o ≠ PyObj.none →
      PyNumber_Long I (some o) ≠ none) :
    ∃ calls : Nat,
      sharp_collect_garbage w I garbage n result =
        .ok (((drained w I garbage 0 calls).length : Int),
          written result 0 (drained w I garbage 0 calls), calls)
      ∧ (calls : Int) ≤ max n 0
      ∧ ((drained w I garbage 0 calls).length : Int) ≤ max n 0
      ∧ (∀ j, j + 1 < calls → isSentinel (garbage j) = false)
      ∧ ((calls : Int) < n → 0 < calls ∧ isSentinel (garbage (calls - 1)) = true) := by
  obtain ⟨k, hk, heq, hno, hstop⟩ :=
    sharp_collect_garbage_loop_spec w I garbage n.toNat 0 0 result
      (fun k o _ h2 h3 => hconv k o (by omega) (fun j hj => h3 j (Nat.zero_le _) hj))
  have hlen := drained_length_le w I garbage 0 k
  refine ⟨k, ?_, by omega, by omega, ?_, ?_⟩
  · unfold sharp_collect_garbage
    rw [heq]
    simp
  · intro j hj
    exact hno j (Nat.zero_le _) (by omega)
  · intro hlt
    have := hstop (by omega)
    simpa using this

theorem garbage3_converts (k : Nat) (o : PyObj) (hg : garbage3 k = .value o)
    (ho : o ≠ PyObj.none) : PyNumber_Long demo (some o) ≠ none := by
  match k, hg with
  | 0, hg =>
    simp only [garbage3, PyResult.value.injEq] at hg
    subst hg
    simp [PyNumber_Long]
  | 1, hg =>
    simp only [garbage3, PyResult.value.injEq] at hg
    subst hg
    simp [PyNumber_Long]
  | k + 2, hg =>
    simp only [garbage3, PyResult.value.injEq] at hg
    exact absurd hg.symm ho

/-- C5 (witness). With the responses `2^63`, `5`, `None` and `n = 3`, every response converts,
and the drain makes its calls and stores its handles as stated. -/
theorem sharp_collect_garbage_drain_witness :
    (∀ (k : Nat) (o : PyObj), (k : Int) < 3 →
      (∀ j, j < k → isSentinel (garbage3 j) = false) → garbage3 k = .value o →
      o ≠ PyObj.none → PyNumber_Long demo (some o) ≠ none)
    ∧ ∃ calls : Nat,
      sharp_collect_garbage .bits32 demo garbage3 3 (fun _ => 0) =
        .ok (((drained .bits32 demo garbage3 0 calls).length : Int),
          written (fun _ => 0) 0 (drained .bits32 demo garbage3 0 calls), calls)
      ∧ (calls : Int) ≤ max 3 0
      ∧ ((drained .bits32 demo garbage3 0 calls).length : Int) ≤ max 3 0
      ∧ (∀ j, j + 1 < calls → isSentinel (garbage3 j) = false)
      ∧ ((calls : Int) < 3 → 0 < calls ∧ isSentinel (garbage3 (calls - 1)) = true) :=
  ⟨fun k o _ _ => garbage3_converts k o,
    sharp_collect_garbage_drain .bits32 demo garbage3 3 (fun _ => 0)
      (fun k o _ _ => garbage3_converts k o)⟩

/-- C5 (counterexample). The collect-garbage function answers `2^63`, then `5`, then `None`.
With `n = 3`, for either width of `long`, `sharp_collect_garbage` makes three calls and returns
1 with `result[0] = 5` and `result[1]` untouched: two integers were received, one is written,
and `2^63` is not. -/
theorem sharp_collect_garbage_drops_overflow :
    (∃ out, sharp_collect_garbage .bits32 demo garbage3 3 (fun _ => 0) = .ok (1, out, 3)
      ∧ out 0 = 5 ∧ out 1 = 0)
    ∧ (∃ out, sharp_collect_garbage .bits64 demo garbage3 3 (fun _ => 0) = .ok (1, out, 3)
      ∧ out 0 = 5 ∧ out 1 = 0) :=
  ⟨⟨_, rfl, by decide, by decide⟩, ⟨_, rfl, by decide, by decide⟩⟩

/-! ## `get_python_function` -/

theorem error_nc_ne_none (msg : String) : error_nc msg ≠ none := by
  simp [error_nc]

theorem c_str_cons (c : Char) (l : List Char) (h : c ≠ NUL) :
    (c_str (String.mk (c :: l))).toList = c :: (c_str (String.mk l)).toList := by
  simp [c_str, String.toList, h]

theorem module_message_ne_function_message (funcname : String) :
    error_nc "Failed to load module: \"sharp\"" ≠
      error_nc ("Cannot find function \"" ++ funcname ++ "\"") := by
  intro h
  simp only [error_nc, Option.some.injEq] at h
  have h1 : (c_str "Failed to load module: \"sharp\"").toList.head? = some 'F' := by decide
  have h2 : (c_str ("Cannot find function \"" ++ funcname ++ "\"")).toList.head? = some 'C' := by
    have : ("Cannot find function \"" ++ funcname ++ "\"") =
        String.mk ('C' :: ("annot find function \"" ++ funcname ++ "\"").toList) := by
      apply String.ext
      simp [String.toList]
    rw [this, c_str_cons _ _ (by decide)]
    rfl
  rw [h, h2] at h1
  exact absurd h1 (by decide)

/-- C6 (as amended). Failure propagation of `get_python_function`, for every module name,
function name, interpreter and state. Each failure mode returns a message (never null) and
`*id = 0`: module not found, function attribute not found, attribute not callable, proxy call
failed, proxy kind not starting with `P`. When the proxy reports kind `P` with a handle that
fits a C `int`, the error is null and `*id` is that handle. A null error is returned only when
the proxy reported kind `P`, and then `*id` is the handle converted to `long` and to `int`.
Whenever a message is returned, `*id` is 0. The messages for module-not-found and for
function-not-found differ. -/
theorem get_python_function_failure_propagation {σ : Type} (w : LongWidth) (I : Interp σ)
    (module funcname : String) (st : PyState σ) :
    (∀ e w1, I.importModule module st.world = (.raised e, w1) →
      get_python_function w I module funcname st =
        .ok (error_nc "Failed to load module: \"sharp\"", 0, ⟨w1, some e⟩))
    ∧ (∀ m w1 e w2, I.importModule module st.world = (.value m, w1) →
      I.getAttr m funcname w1 = (.raised e, w2) →
      get_python_function w I module funcname st =
        .ok (error_nc ("Cannot find function \"" ++ funcname ++ "\""), 0, ⟨w2, some e⟩))
    ∧ (∀ m w1 f w2, I.importModule module st.world = (.value m, w1) →
      I.getAttr m funcname w1 = (.value f, w2) → I.callable f = false →
      get_python_function w I module funcname st =
        .ok (error_nc ("Invalid type " ++ I.typeStr f ++ " for [" ++ module ++ "." ++ funcname
          ++ "]"), 0, ⟨w2, st.error⟩))
    ∧ (∀ m w1 f w2 e w3, I.importModule module st.world = (.value m, w1) →
      I.getAttr m funcname w1 = (.value f, w2) → I.callable f = true →
      I.proxy f w2 = (.raised e, w3) →
      get_python_function w I module funcname st =
        .ok (error_nc "call sharp._proxy failed", 0, ⟨w3, some e⟩))
    ∧ (∀ m w1 f w2 pValue w3 kind, I.importModule module st.world = (.value m, w1) →
      I.getAttr m funcname w1 = (.value f, w2) → I.callable f = true →
      I.proxy f w2 = (.value pValue, w3) → PyTuple_GetItem pValue 0 = some kind →
      (∀ s, kind = .unicode s → c_first s ≠ 'P') →
      get_python_function w I module funcname st =
        .ok (error_nc "Not a python object", 0,
          (PyUnicode_AsUTF8 kind (⟨w3, st.error⟩ : PyState σ)).2))
    ∧ (∀ m w1 f w2 pValue w3 s n, I.importModule module st.world = (.value m, w1) →
      I.getAttr m funcname w1 = (.value f, w2) → I.callable f = true →
      I.proxy f w2 = (.value pValue, w3) → PyTuple_GetItem pValue 0 = some (.unicode s) →
      c_first s = 'P' → PyNumber_Long I (PyTuple_GetItem pValue 1) = some n →
      INT_MIN ≤ n ∧ n ≤ INT_MAX →
      get_python_function w I module funcname st = .ok (none, n, ⟨w3, st.error⟩))
    ∧ (∀ id st1, get_python_function w I module funcname st = .ok (none, id, st1) →
      ∃ m w1 f w2 pValue w3 s n, I.importModule module st.world = (.value m, w1) ∧
        I.getAttr m funcname w1 = (.value f, w2) ∧ I.callable f = true ∧
        I.proxy f w2 = (.value pValue, w3) ∧ PyTuple_GetItem pValue 0 = some (.unicode s) ∧
        c_first s = 'P' ∧ PyNumber_Long I (PyTuple_GetItem pValue 1) = some n ∧
        id = long_to_int (PyLong_AsLong w n (⟨w3, st.error⟩ : PyState σ)).1)
    ∧ (∀ msg id st1, get_python_function w I module funcname st = .ok (some msg, id, st1) →
      id = 0)
    ∧ (∀ msg, error_nc msg ≠ none)
    ∧ error_nc "Failed to load module: \"sharp\"" ≠
      error_nc ("Cannot find function \"" ++ funcname ++ "\"") := by
  refine ⟨?_, ?_, ?_, ?_, ?_, ?_, ?_, ?_, error_nc_ne_none,
    module_message_ne_function_message funcname⟩
  · intro e w1 h
    simp [get_python_function, enter, h]
  · intro m w1 e w2 h1 h2
    simp [get_python_function, enter, h1, h2]
  · intro m w1 f w2 h1 h2 h3
    simp [get_python_function, enter, h1, h2, h3]
  · intro m w1 f w2 e w3 h1 h2 h3 h4
    simp [get_python_function, enter, h1, h2, h3, h4]
  · intro m w1 f w2 pValue w3 kind h1 h2 h3 h4 h5 h6
    cases kind with
    | unicode s =>
      have h7 := h6 s rfl
      simp [get_python_function, enter, h1, h2, h3, h4, h5, PyUnicode_AsUTF8, h7]
    | _ => simp [get_python_function, enter, h1, h2, h3, h4, h5, PyUnicode_AsUTF8]
  · intro m w1 f w2 pValue w3 s n h1 h2 h3 h4 h5 h6 h7 h8
    have hl : PyLong_AsLong w n (⟨w3, st.error⟩ : PyState σ) = (n, ⟨w3, st.error⟩) := by
      unfold PyLong_AsLong
      rw [if_pos (int_fits_long w n h8)]
    simp [get_python_function, enter, h1, h2, h3, h4, h5, PyUnicode_AsUTF8, h6, h7, hl,
      long_to_int_of_fits n h8]
  · intro id st1 h
    rcases hi : I.importModule module st.world with ⟨ri, w1⟩
    cases ri with
    | raised e => simp [get_python_function, enter, hi, error_nc] at h
    | value m =>
      rcases ha : I.getAttr m funcname w1 with ⟨ra, w2⟩
      cases ra with
      | raised e => simp [get_python_function, enter, hi, ha, error_nc] at h
      | value f =>
        cases hc : I.callable f with
        | false => simp [get_python_function, enter, hi, ha, hc, error_nc] at h
        | true =>
          rcases hp : I.proxy f w2 with ⟨rp, w3⟩
          cases rp with
          | raised e => simp [get_python_function, enter, hi, ha, hc, hp, error_nc] at h
          | value pValue =>
            cases h0 : PyTuple_GetItem pValue 0 with
            | none => simp [get_python_function, enter, hi, ha, hc, hp, h0] at h
            | some kind =>
              cases kind with
              | unicode s =>
                by_cases hP : c_first s = 'P'
                · cases hn : PyNumber_Long I (PyTuple_GetItem pValue 1) with
                  | none =>
                    simp [get_python_function, enter, hi, ha, hc, hp, h0, PyUnicode_AsUTF8, hP,
                      hn] at h
                  | some n =>
                    simp [get_python_function, enter, hi, ha, hc, hp, h0, PyUnicode_AsUTF8, hP,
                      hn] at h
                    exact ⟨m, w1, f, w2, pValue, w3, s, n, rfl, ha, hc, hp, h0, hP, hn,
                      h.1.symm⟩
                · simp [get_python_function, enter, hi, ha, hc, hp, h0, PyUnicode_AsUTF8, hP,
                    error_nc] at h
              | _ =>
                simp [get_python_function, enter, hi, ha, hc, hp, h0, PyUnicode_AsUTF8,
                  error_nc] at h
  · intro msg id st1 h
    rcases hi : I.importModule module st.world with ⟨ri, w1⟩
    cases ri with
    | raised e =>
      simp [get_python_function, enter, hi, error_nc] at h
      exact h.2.1.symm
    | value m =>
      rcases ha : I.getAttr m funcname w1 with ⟨ra, w2⟩
      cases ra with
      | raised e =>
        simp [get_python_function, enter, hi, ha, error_nc] at h
        exact h.2.1.symm
      | value f =>
        cases hc : I.callable f with
        | false =>
          simp [get_python_function, enter, hi, ha, hc, error_nc] at h
          exact h.2.1.symm
        | true =>
          rcases hp : I.proxy f w2 with ⟨rp, w3⟩
          cases rp with
          | raised e =>
            simp [get_python_function, enter, hi, ha, hc, hp, error_nc] at h
            exact h.2.1.symm
          | value pValue =>
            cases h0 : PyTuple_GetItem pValue 0 with
            | none => simp [get_python_function, enter, hi, ha, hc, hp, h0] at h
            | some kind =>
              cases kind with
              | unicode s =>
                by_cases hP : c_first s = 'P'
                · cases hn : PyNumber_Long I (PyTuple_GetItem pValue 1) with
                  | none =>
                    simp [get_python_function, enter, hi, ha, hc, hp, h0, PyUnicode_AsUTF8, hP,
                      hn] at h
                  | some n =>
                    simp [get_python_function, enter, hi, ha, hc, hp, h0, PyUnicode_AsUTF8, hP,
                      hn] at h
                · simp [get_python_function, enter, hi, ha, hc, hp, h0, PyUnicode_AsUTF8, hP,
                    error_nc] at h
                  exact h.2.1.symm
              | _ =>
                simp [get_python_function, enter, hi, ha, hc, hp, h0, PyUnicode_AsUTF8,
                  error_nc] at h
                exact h.2.1.symm

/-- C6 (witness). In the example interpreter: an unknown module and an unknown function give
the two messages with `*id = 0`, and `mathlib.add` gives a null error with the handle 1. -/
theorem get_python_function_failure_propagation_witness :
    (demo.importModule "nomodule" st0.world =
        (.raised ⟨"ModuleNotFoundError", "No module named nomodule"⟩, 1)
      ∧ get_python_function .bits64 demo "nomodule" "f" st0 =
        .ok (error_nc "Failed to load module: \"sharp\"", 0,
          ⟨1, some ⟨"ModuleNotFoundError", "No module named nomodule"⟩⟩))
    ∧ (demo.getAttr (.object 50) "nofunc" 1 = (.raised ⟨"AttributeError", "nofunc"⟩, 2)
      ∧ get_python_function .bits64 demo "mathlib" "nofunc" st0 =
        .ok (error_nc ("Cannot find function \"" ++ "nofunc" ++ "\""), 0,
          ⟨2, some ⟨"AttributeError", "nofunc"⟩⟩))
    ∧ (demo.proxy (.object 100) 2 = (.value (.tuple [.unicode "P", .long 1]), 3)
      ∧ get_python_function .bits64 demo "mathlib" "add" st0 = .ok (none, 1, ⟨3, none⟩)) :=
  ⟨⟨by decide,
      (get_python_function_failure_propagation .bits64 demo "nomodule" "f" st0).1 _ _
        (by decide)⟩,
    ⟨by decide,
      (get_python_function_failure_propagation .bits64 demo "mathlib" "nofunc" st0).2.1
        (.object 50) 1 _ _ (by decide) (by decide)⟩,
    ⟨by decide,
      (get_python_function_failure_propagation .bits64 demo "mathlib" "add" st0).2.2.2.2.2.1
        (.object 50) 1 (.object 100) 2 (.tuple [.unicode "P", .long 1]) 3 "P" 1 (by decide)
        (by decide) (by decide)
        (by decide) (by decide) (by decide) (by decide) (by decide)⟩⟩

/-- C6 (counterexample). The proxy reports kind `P` with the handle `2^63` for `mathlib.big`:
for either width of `long`, `get_python_function` returns a null error with `*id = -1`, which
is not the handle the proxy returned. -/
theorem get_python_function_handle_differs :
    demo.proxy (.object 9) 2 = (.value (.tuple [.unicode "P", .long 9223372036854775808]), 3)
    ∧ get_python_function .bits32 demo "mathlib" "big" st0 =
      .ok (none, -1, ⟨3, some ⟨"OverflowError", "Python int too large to convert to C long"⟩⟩)
    ∧ get_python_function .bits64 demo "mathlib" "big" st0 =
      .ok (none, -1, ⟨3, some ⟨"OverflowError", "Python int too large to convert to C long"⟩⟩)
    := by
  decide

/-! ## The argument marshaler and the two call directions -/

end Xpy
